import Mathlib

/-!
Verification of the computational core of `src/energy_simulation_app.py`.

The app's numeric core is a handful of closed-form formulas over scalar
inputs.  Python floats are embedded as exact rationals (`ℚ`); the formulas
contain only `+`, `*`, `/` and `min`, so the rational embedding computes the
same algebraic values the spec describes.  Fallible code (Python division,
which raises `ZeroDivisionError` on a zero divisor) is embedded with
`Except`.
-/

/-- Constant `GRAVITY = 9.81` (m/s²) from the source. -/
def GRAVITY : ℚ := 981 / 100

/-- Constant `WATER_DENSITY = 1000` (kg/m³) from the source. -/
def WATER_DENSITY : ℚ := 1000

/-- Constant `HOURS_PER_YEAR = 24 * 365` from the source. -/
def HOURS_PER_YEAR : ℚ := 24 * 365

/-- Source `geothermal_thermal_power(mass_flow, Cp, delta_T)`:
returns `mass_flow * Cp * delta_T` (kW). -/
def geothermal_thermal_power (mass_flow Cp delta_T : ℚ) : ℚ :=
  mass_flow * Cp * delta_T

/-- Source `geothermal_electric_power(Qthermal, efficiency)`:
returns `Qthermal * efficiency`. -/
def geothermal_electric_power (Qthermal efficiency : ℚ) : ℚ :=
  Qthermal * efficiency

/-- Source `recovered_waste_power(E_input, wasted_fraction, AI_fraction)`:
returns `E_input * wasted_fraction * AI_fraction`. -/
def recovered_waste_power (E_input wasted_fraction AI_fraction : ℚ) : ℚ :=
  E_input * wasted_fraction * AI_fraction

/-- Source `waterfall_power(flow_rate, height, efficiency)`:
`P_watts = WATER_DENSITY * GRAVITY * flow_rate * height * efficiency`,
returned as `P_watts / 1000` (kW). -/
def waterfall_power (flow_rate height efficiency : ℚ) : ℚ :=
  WATER_DENSITY * GRAVITY * flow_rate * height * efficiency / 1000

/-- Source `annual_energy(power_kw)`: returns `power_kw * HOURS_PER_YEAR`. -/
def annual_energy (power_kw : ℚ) : ℚ :=
  power_kw * HOURS_PER_YEAR

/-- Source `households_powered(Eyear, consumption_per_household)`:
returns `Eyear / consumption_per_household` (total embedding; the
division-raising behaviour is captured by `households_poweredE`). -/
def households_powered (Eyear consumption_per_household : ℚ) : ℚ :=
  Eyear / consumption_per_household

/-- The source function's default divisor: `consumption_per_household=7200`. -/
def households_powered_default (Eyear : ℚ) : ℚ :=
  households_powered Eyear 7200

/-- Fallible embedding of `households_powered`: Python `/` raises
`ZeroDivisionError` on a zero divisor and performs the plain division
otherwise; the source applies no guard or substitute value. -/
def households_poweredE (Eyear consumption_per_household : ℚ) : Except String ℚ :=
  if consumption_per_household = 0 then Except.error "ZeroDivisionError"
  else Except.ok (Eyear / consumption_per_household)

/-- One row of the report DataFrame built by `generate_report_df`:
columns `Source`, `Power Output (kW)`, `Annual Energy (kWh)`,
`Households Powered`. -/
structure ReportRow where
  source : String
  power_output_kw : ℚ
  annual_energy_kwh : ℚ
  households : ℚ

/-- Source `generate_report_df(Pgeo, Pwaste, Pwaterfall)`: two rows with
sources `Geothermal + Waste` and `Waterfall Turbine` and powers
`Pgeo + Pwaste` and `Pwaterfall`; the `Annual Energy (kWh)` column is the
power column times `HOURS_PER_YEAR` and the `Households Powered` column is
the annual-energy column divided by 7200. -/
def generate_report_df (Pgeo Pwaste Pwaterfall : ℚ) : List ReportRow :=
  let sources : List String := ["Geothermal + Waste", "Waterfall Turbine"]
  let powers : List ℚ := [Pgeo + Pwaste, Pwaterfall]
  (sources.zip powers).map fun sp =>
    { source := sp.1
      power_output_kw := sp.2
      annual_energy_kwh := sp.2 * HOURS_PER_YEAR
      households := sp.2 * HOURS_PER_YEAR / 7200 }

/-- Source `optimize_ai_fraction(E_input, wasted_fraction, target_power)`:
returns 0 if `wasted_fraction == 0`, otherwise
`min(1.0, target_power / (E_input * wasted_fraction))`. -/
def optimize_ai_fraction (E_input wasted_fraction target_power : ℚ) : ℚ :=
  if wasted_fraction = 0 then 0
  else min 1 (target_power / (E_input * wasted_fraction))

/-- The geothermal input variables of the app (source line 81 and sliders):
`mass_flow, Cp, delta_T, geothermal_eff, E_input, wasted_fraction,
AI_fraction`. -/
structure GeothermalState where
  mass_flow : ℚ
  Cp : ℚ
  delta_T : ℚ
  geothermal_eff : ℚ
  E_input : ℚ
  wasted_fraction : ℚ
  AI_fraction : ℚ

/-- The default values assigned before the scenario branch:
`10, 4.18, 150, 0.12, 100, 0.3, 0.7`. -/
def defaultGeothermal : GeothermalState :=
  { mass_flow := 10, Cp := 418 / 100, delta_T := 150, geothermal_eff := 12 / 100,
    E_input := 100, wasted_fraction := 3 / 10, AI_fraction := 7 / 10 }

/-- The scenario selector's four options. -/
inductive Scenario
  | custom
  | smallWell
  | largeWell
  | extremeHighOutput

/-- The scenario preset branch of the source: each named preset reassigns
only `mass_flow`, `delta_T` and `geothermal_eff`; `Custom` reassigns
nothing. -/
def applyScenario (s : Scenario) (g : GeothermalState) : GeothermalState :=
  match s with
  | Scenario.custom => g
  | Scenario.smallWell =>
      { g with mass_flow := 10, delta_T := 150, geothermal_eff := 12 / 100 }
  | Scenario.largeWell =>
      { g with mass_flow := 50, delta_T := 200, geothermal_eff := 12 / 100 }
  | Scenario.extremeHighOutput =>
      { g with mass_flow := 100, delta_T := 250, geothermal_eff := 15 / 100 }

/-- Modelled from the spec: the repository variant containing
`optimize_turbine` is absent from `src/`; the spec describes its candidate
grid as 36 evenly spaced turbine efficiencies in [0.60, 0.95] inclusive
(step 0.01). -/
def turbineGrid : List ℚ :=
  (List.range 36).map fun (i : ℕ) => 60 / 100 + (i : ℚ) / 100

/-- Modelled from the spec: the repository variant containing
`optimize_turbine(flow_rate, height)` is absent from `src/`.  It scans
`turbineGrid`, computing `waterfall_power(flow_rate, height, candidate)`
for each candidate, keeping the first-seen candidate and replacing it only
when a strictly greater power appears, and returns the best candidate with
its power. -/
def optimize_turbine (flow_rate height : ℚ) : ℚ × ℚ :=
  (turbineGrid.drop 1).foldl
    (fun best cand =>
      if best.2 < waterfall_power flow_rate height cand
      then (cand, waterfall_power flow_rate height cand)
      else best)
    (60 / 100, waterfall_power flow_rate height (60 / 100))

/-- Helper: scanning a strictly increasing candidate list with objective
`c * cand` under the strictly-greater-replaces rule ends at the last
candidate. -/
theorem foldl_best_of_chain (c : ℚ) (hc : 0 < c) :
    ∀ (l : List ℚ) (e : ℚ), List.Chain (· < ·) e l →
      l.foldl (fun best cand => if best.2 < c * cand then (cand, c * cand) else best)
        (e, c * e)
        = ((e :: l).getLast (List.cons_ne_nil e l),
           c * (e :: l).getLast (List.cons_ne_nil e l)) := by
  intro l
  induction l with
  | nil =>
      intro e _
      simp
  | cons x xs ih =>
      intro e hchain
      rcases List.chain_cons.mp hchain with ⟨hex, hxs⟩
      have hlt : c * e < c * x := mul_lt_mul_of_pos_left hex hc
      have hstep :
          List.foldl (fun best cand => if best.2 < c * cand then (cand, c * cand) else best)
            (e, c * e) (x :: xs)
          = List.foldl (fun best cand => if best.2 < c * cand then (cand, c * cand) else best)
            (x, c * x) xs := by
        simp [hlt]
      rw [hstep, ih x hxs]
      simp [List.getLast_cons]

/-- Claim C1: for every input electricity E, wasted fraction w and target
power t, `optimize_ai_fraction` returns 0 when w = 0, and otherwise
returns min(1, t / (E * w)). -/
theorem claim_C1_optimize_ai_fraction (E w t : ℚ) :
    (w = 0 → optimize_ai_fraction E w t = 0) ∧
    (w ≠ 0 → optimize_ai_fraction E w t = min 1 (t / (E * w))) := by
  constructor
  · intro hw
    simp [optimize_ai_fraction, hw]
  · intro hw
    simp [optimize_ai_fraction, hw]

/-- Witness for claim C1 at E = 100, w = 0 resp. w = 3/10, t = 500. -/
theorem claim_C1_witness :
    optimize_ai_fraction 100 0 500 = 0 ∧
    optimize_ai_fraction 100 (3 / 10) 500 = min 1 (500 / (100 * (3 / 10))) :=
  ⟨(claim_C1_optimize_ai_fraction 100 0 500).1 rfl,
   (claim_C1_optimize_ai_fraction 100 (3 / 10) 500).2 (by norm_num)⟩

/-- Claim C2: `waterfall_power f h e = 1000 * 9.81 * f * h * e / 1000`
with density 1000 and gravity 9.81 fixed; in particular
`waterfall_power 10 50 0.9 = 4414.5`. -/
theorem claim_C2_waterfall_power :
    (∀ f h e : ℚ, waterfall_power f h e = 1000 * (981 / 100) * f * h * e / 1000) ∧
    WATER_DENSITY = 1000 ∧ GRAVITY = 981 / 100 ∧
    waterfall_power 10 50 (9 / 10) = 8829 / 2 := by
  refine ⟨fun f h e => ?_, rfl, rfl, ?_⟩
  · simp [waterfall_power, WATER_DENSITY, GRAVITY]
  · norm_num [waterfall_power, WATER_DENSITY, GRAVITY]

/-- Claim C3: the report builder produces exactly the two rows
`Geothermal + Waste` (power = geothermal electric + recovered waste) and
`Waterfall Turbine` (power = waterfall power), each with annual energy
power × 8760 and households annual energy / 7200. -/
theorem claim_C3_generate_report (Pgeo Pwaste Pwaterfall : ℚ) :
    generate_report_df Pgeo Pwaste Pwaterfall =
      [{ source := "Geothermal + Waste",
         power_output_kw := Pgeo + Pwaste,
         annual_energy_kwh := (Pgeo + Pwaste) * 8760,
         households := (Pgeo + Pwaste) * 8760 / 7200 },
       { source := "Waterfall Turbine",
         power_output_kw := Pwaterfall,
         annual_energy_kwh := Pwaterfall * 8760,
         households := Pwaterfall * 8760 / 7200 }] := by
  norm_num [generate_report_df, HOURS_PER_YEAR]

/-- Claim C4: the geothermal thermal power operation returns exactly
`m * Cp * dT`, with no unit conversion applied. -/
theorem claim_C4_thermal_power (mass_flow Cp delta_T : ℚ) :
    geothermal_thermal_power mass_flow Cp delta_T = mass_flow * Cp * delta_T :=
  rfl

/-- Claim C5: `annual_energy p = p * 8760` (24 × 365, no leap-year
adjustment); in particular `annual_energy 1 = 8760`, not 8766. -/
theorem claim_C5_annual_energy :
    (∀ p : ℚ, annual_energy p = p * 8760) ∧
    HOURS_PER_YEAR = 24 * 365 ∧
    annual_energy 1 = 8760 ∧ annual_energy 1 ≠ 8766 := by
  refine ⟨fun p => ?_, rfl, ?_, ?_⟩ <;>
    norm_num [annual_energy, HOURS_PER_YEAR]

/-- Claim C6: `households_powered E d = E / d`, the default divisor is
7200, and `households_powered 7200` with the default divisor equals 1. -/
theorem claim_C6_households_powered :
    (∀ E d : ℚ, households_powered E d = E / d) ∧
    (∀ E : ℚ, households_powered_default E = households_powered E 7200) ∧
    households_powered_default 7200 = 1 := by
  refine ⟨fun E d => rfl, fun E => rfl, ?_⟩
  norm_num [households_powered_default, households_powered]

/-- Claim C7: `households_powered` with a zero divisor does not guard or
substitute: the fallible embedding yields the division-by-zero error at a
zero divisor and the plain quotient otherwise. -/
theorem claim_C7_division_by_zero (Eyear : ℚ) :
    households_poweredE Eyear 0 = Except.error "ZeroDivisionError" ∧
    (∀ d : ℚ, d ≠ 0 → households_poweredE Eyear d = Except.ok (Eyear / d)) := by
  constructor
  · simp [households_poweredE]
  · intro d hd
    simp [households_poweredE, hd]

/-- Witness for claim C7 at Eyear = 7200, divisors 0 and 7200. -/
theorem claim_C7_witness :
    households_poweredE 7200 0 = Except.error "ZeroDivisionError" ∧
    households_poweredE 7200 7200 = Except.ok (7200 / 7200) :=
  ⟨(claim_C7_division_by_zero 7200).1,
   (claim_C7_division_by_zero 7200).2 7200 (by norm_num)⟩

/-- Claim C8: applying the Large Well preset sets mass_flow = 50,
delta_T = 200 and conversion efficiency = 0.12, and leaves Cp, input
electricity, wasted fraction and AI recovery fraction unchanged. -/
theorem claim_C8_large_well (g : GeothermalState) :
    (applyScenario Scenario.largeWell g).mass_flow = 50 ∧
    (applyScenario Scenario.largeWell g).delta_T = 200 ∧
    (applyScenario Scenario.largeWell g).geothermal_eff = 12 / 100 ∧
    (applyScenario Scenario.largeWell g).Cp = g.Cp ∧
    (applyScenario Scenario.largeWell g).E_input = g.E_input ∧
    (applyScenario Scenario.largeWell g).wasted_fraction = g.wasted_fraction ∧
    (applyScenario Scenario.largeWell g).AI_fraction = g.AI_fraction :=
  ⟨rfl, rfl, rfl, rfl, rfl, rfl, rfl⟩

/-- Claim C9: `optimize_turbine` scans 36 evenly spaced efficiencies in
[0.60, 0.95] inclusive with first-seen-on-tie, strictly-greater-replaces
selection, and for every positive flow rate and height it returns 0.95
together with `waterfall_power flow_rate height 0.95`. -/
theorem claim_C9_optimize_turbine :
    turbineGrid.length = 36 ∧
    turbineGrid.head? = some (60 / 100) ∧
    turbineGrid.getLast? = some (95 / 100) ∧
    (∀ flow_rate height : ℚ, 0 < flow_rate → 0 < height →
      optimize_turbine flow_rate height
        = (95 / 100, waterfall_power flow_rate height (95 / 100))) := by
  refine ⟨?_, ?_, ?_, ?_⟩
  · unfold turbineGrid
    rw [List.length_map, List.length_range]
  · norm_num [turbineGrid, List.range_succ]
  · norm_num [turbineGrid, List.range_succ]
  · intro f h hf hh
    have hc : 0 < (981 / 100 : ℚ) * f * h := by positivity
    have hwp : ∀ e : ℚ, waterfall_power f h e = (981 / 100 : ℚ) * f * h * e := by
      intro e
      simp only [waterfall_power, WATER_DENSITY, GRAVITY]
      ring
    have hchain : List.Chain (· < ·) (60 / 100 : ℚ) (turbineGrid.drop 1) := by
      norm_num [turbineGrid, List.range_succ, List.chain_cons]
    have hfold := foldl_best_of_chain ((981 / 100 : ℚ) * f * h) hc
      (turbineGrid.drop 1) (60 / 100) hchain
    have hlast : ((60 / 100 : ℚ) :: turbineGrid.drop 1).getLast
        (List.cons_ne_nil _ _) = 95 / 100 := by
      norm_num [turbineGrid, List.range_succ]
    unfold optimize_turbine
    simp only [hwp]
    rw [hfold, hlast]

/-- Witness for claim C9 at flow rate 10 and height 50. -/
theorem claim_C9_witness :
    optimize_turbine 10 50 = (95 / 100, waterfall_power 10 50 (95 / 100)) :=
  claim_C9_optimize_turbine.2.2.2 10 50 (by norm_num) (by norm_num)

/-- Claim C10: for E > 0 and t ≥ 0, the AI-suggested fraction lies in
[0, 1] when w > 0 and feeding it back through `recovered_waste_power`
yields min t (E * w); when w = 0 the fraction and the recovered power are
both 0. -/
theorem claim_C10_ai_round_trip (E w t : ℚ) (hE : 0 < E) (ht : 0 ≤ t) :
    (0 < w →
      0 ≤ optimize_ai_fraction E w t ∧
      optimize_ai_fraction E w t ≤ 1 ∧
      recovered_waste_power E w (optimize_ai_fraction E w t) = min t (E * w)) ∧
    (w = 0 →
      optimize_ai_fraction E w t = 0 ∧
      recovered_waste_power E w (optimize_ai_fraction E w t) = 0) := by
  constructor
  · intro hw
    have hw0 : w ≠ 0 := ne_of_gt hw
    have hc : 0 < E * w := mul_pos hE hw
    have hf : optimize_ai_fraction E w t = min 1 (t / (E * w)) := by
      simp [optimize_ai_fraction, hw0]
    refine ⟨?_, ?_, ?_⟩
    · rw [hf]
      exact le_min zero_le_one (div_nonneg ht hc.le)
    · rw [hf]
      exact min_le_left _ _
    · rw [hf]
      unfold recovered_waste_power
      rcases le_or_lt t (E * w) with hle | hlt
      · have h1 : t / (E * w) ≤ 1 := (div_le_one hc).mpr hle
        rw [min_eq_right h1, min_eq_left hle]
        field_simp
      · have h1 : 1 ≤ t / (E * w) := (one_le_div hc).mpr hlt.le
        rw [min_eq_left h1, min_eq_right hlt.le]
        ring
  · intro hw
    subst hw
    exact ⟨by simp [optimize_ai_fraction], by simp [recovered_waste_power]⟩

/-- Witness for claim C10 at E = 100, w = 3/10, t = 500. -/
theorem claim_C10_witness :
    0 ≤ optimize_ai_fraction 100 (3 / 10) 500 ∧
    optimize_ai_fraction 100 (3 / 10) 500 ≤ 1 ∧
    recovered_waste_power 100 (3 / 10) (optimize_ai_fraction 100 (3 / 10) 500)
      = min 500 (100 * (3 / 10)) :=
  (claim_C10_ai_round_trip 100 (3 / 10) 500 (by norm_num) (by norm_num)).1
    (by norm_num)
